import Mathlib

/-!
Verification of the everydAI real-time device/call session coordinator.

The definitions below are a shallow embedding of the JavaScript source:
`CallService` (server/services/twilio.js), `DeviceManager`
(server/services/deviceManager.js) and the WebSocket message router of the
server entry point.  JS `Map` objects are embedded as association lists with
`Map.set` in-place-update semantics, `Date` values as natural-number
millisecond timestamps, and the external speech capability as an oracle
parameter.  Each theorem settles one claim about the source.
-/

namespace EverydAI

/-- Lookup in an association-list embedding of a JS `Map` (first match). -/
def mget {α : Type} (m : List (String × α)) (k : String) : Option α :=
  match m with
  | [] => none
  | (k2, v) :: rest => if k2 = k then some v else mget rest k

/-- `Map.set` semantics: replace the entry in place, or append a new one. -/
def mset {α : Type} (m : List (String × α)) (k : String) (v : α) :
    List (String × α) :=
  match m with
  | [] => [(k, v)]
  | (k2, v2) :: rest => if k2 = k then (k, v) :: rest else (k2, v2) :: mset rest k v

/-- `Map.delete` semantics: remove the entry for a key. -/
def mdel {α : Type} (m : List (String × α)) (k : String) : List (String × α) :=
  m.filter (fun p => p.1 ≠ k)

/-- `Map.has` semantics. -/
def mhas {α : Type} (m : List (String × α)) (k : String) : Bool :=
  (mget m k).isSome

theorem mget_mset_self {α : Type} (m : List (String × α)) (k : String) (v : α) :
    mget (mset m k v) k = some v := by
  induction m with
  | nil => simp [mget, mset]
  | cons p rest ih =>
    by_cases h : p.1 = k
    · simp [mset, mget, h]
    · simp [mset, mget, h, ih]

theorem mget_mset_ne {α : Type} (m : List (String × α)) (k j : String) (v : α)
    (h : j ≠ k) : mget (mset m k v) j = mget m j := by
  have hkj : ¬ k = j := fun e => h e.symm
  induction m with
  | nil => simp [mget, mset, hkj]
  | cons p rest ih =>
    obtain ⟨k2, v2⟩ := p
    by_cases hp : k2 = k
    · subst hp
      simp [mset, mget, hkj]
    · by_cases hpj : k2 = j
      · simp [mset, mget, hp, hpj, hkj, h]
      · simp [mset, mget, hp, hpj, ih]

theorem mdel_cons {α : Type} (k2 : String) (v2 : α) (rest : List (String × α))
    (k : String) :
    mdel ((k2, v2) :: rest) k =
      if k2 = k then mdel rest k else (k2, v2) :: mdel rest k := by
  by_cases h : k2 = k <;> simp [mdel, List.filter_cons, h]

theorem mget_mdel_self {α : Type} (m : List (String × α)) (k : String) :
    mget (mdel m k) k = none := by
  induction m with
  | nil => simp [mget, mdel]
  | cons p rest ih =>
    obtain ⟨k2, v2⟩ := p
    rw [mdel_cons]
    by_cases h : k2 = k
    · simpa [h] using ih
    · simpa [mget, h] using ih

theorem mget_mdel_ne {α : Type} (m : List (String × α)) (k j : String)
    (h : j ≠ k) : mget (mdel m k) j = mget m j := by
  have hkj : ¬ k = j := fun e => h e.symm
  induction m with
  | nil => simp [mget, mdel]
  | cons p rest ih =>
    obtain ⟨k2, v2⟩ := p
    rw [mdel_cons]
    by_cases hp : k2 = k
    · simpa [mget, hp, hkj] using ih
    · by_cases hpj : k2 = j
      · simp [mget, hp, hpj, hkj, h]
      · simpa [mget, hp, hpj] using ih

theorem mem_map_snd_of_mget {α : Type} (m : List (String × α)) (k : String)
    (v : α) (h : mget m k = some v) : v ∈ m.map Prod.snd := by
  induction m with
  | nil => simp [mget] at h
  | cons p rest ih =>
    by_cases hp : p.1 = k
    · simp [mget, hp] at h
      simp [h]
    · simp [mget, hp] at h
      simp [ih h]

/-- A call session record as built by `CallService.registerCall` and mutated by
`updateCallStatus` / `processCallAudio`.  Fields that the JS code attaches
later are embedded as `Option`, initially `none`. -/
structure Call where
  callId : String
  phoneNumber : String
  deviceId : String
  startTime : Nat
  isIncoming : Bool
  status : String
  transcript : String
  processingTime : Nat
  answeredAt : Option Nat
  endedAt : Option Nat
  duration : Option Nat
  summary : Option String
deriving DecidableEq

/-- Result shape `{success: true, call}` / `{success: false, error}`. -/
inductive CallResult where
  | ok (call : Call)
  | err (error : String)
deriving DecidableEq

/-- The mutable state of the `CallService` singleton: its four `Map`s. -/
structure CallServiceState where
  activeCalls : List (String × Call)
  callAudioChunks : List (String × List String)
  callTranscriptions : List (String × String)
  callObservers : List (String × List String)
deriving DecidableEq

/-- The empty state produced by the `CallService` constructor. -/
def emptyCallService : CallServiceState := ⟨[], [], [], []⟩

/-- The call record literal built inside `registerCall`. -/
def freshCall (now : Nat) (callId phoneNumber deviceId : String)
    (isIncoming : Bool) : Call :=
  { callId := callId
    phoneNumber := phoneNumber
    deviceId := deviceId
    startTime := now
    isIncoming := isIncoming
    status := "ringing"
    transcript := ""
    processingTime := 0
    answeredAt := none
    endedAt := none
    duration := none
    summary := none }

/-- `CallService.registerCall`: unconditionally stores a fresh call record and
resets the audio-chunk and transcription entries for the call id.  The source
performs no duplicate check; the only failure path is its `catch` block, which
no operation in the body reaches. -/
def registerCall (now : Nat) (callId phoneNumber deviceId : String)
    (isIncoming : Bool) (s : CallServiceState) :
    CallResult × CallServiceState :=
  let call := freshCall now callId phoneNumber deviceId isIncoming
  (CallResult.ok call,
   { s with
      activeCalls := mset s.activeCalls callId call
      callAudioChunks := mset s.callAudioChunks callId []
      callTranscriptions := mset s.callTranscriptions callId "" })

/-- Outcome of `CallService.updateCallStatus`; `finalizeTriggered` records
whether the body invoked `finalizeCallProcessing`. -/
structure StatusUpdate where
  result : CallResult
  state : CallServiceState
  finalizeTriggered : Bool
deriving DecidableEq

/-- `CallService.updateCallStatus`: fails only when the call id is absent;
otherwise stores `status` verbatim.  At `answered` it stamps `answeredAt`; at
`ended` it stamps `endedAt`, computes
`duration = Math.round((endedAt - (answeredAt || startTime)) / 1000)` and
invokes `finalizeCallProcessing`.  No transition validation is performed. -/
def updateCallStatus (now : Nat) (callId status : String)
    (s : CallServiceState) : StatusUpdate :=
  match mget s.activeCalls callId with
  | none => ⟨CallResult.err "Call not found", s, false⟩
  | some call =>
    let call1 := { call with status := status }
    if status = "answered" then
      let c := { call1 with answeredAt := some now }
      ⟨CallResult.ok c, { s with activeCalls := mset s.activeCalls callId c }, false⟩
    else if status = "ended" then
      let base := call1.answeredAt.getD call1.startTime
      let c := { call1 with
                  endedAt := some now
                  duration := some ((now - base + 500) / 1000) }
      ⟨CallResult.ok c, { s with activeCalls := mset s.activeCalls callId c }, true⟩
    else
      ⟨CallResult.ok call1,
       { s with activeCalls := mset s.activeCalls callId call1 }, false⟩

/-- `CallService.cleanupCall`: deletes only the audio chunks; the comment in
the source says the call metadata is kept for history. -/
def cleanupCall (callId : String) (s : CallServiceState) : CallServiceState :=
  { s with callAudioChunks := mdel s.callAudioChunks callId }

/-- `CallService.getActiveCalls`: all values of the `activeCalls` map, with no
status filter. -/
def getActiveCalls (s : CallServiceState) : List Call :=
  s.activeCalls.map Prod.snd

/-- `CallService.getCall`. -/
def getCall (callId : String) (s : CallServiceState) : Option Call :=
  mget s.activeCalls callId

/-- `CallService.addCallObserver`: set-insert of a client id. -/
def addCallObserver (callId clientId : String) (s : CallServiceState) :
    CallServiceState :=
  let obs := (mget s.callObservers callId).getD []
  let obs2 := if clientId ∈ obs then obs else obs ++ [clientId]
  { s with callObservers := mset s.callObservers callId obs2 }

/-- `CallService.removeCallObserver`. -/
def removeCallObserver (callId clientId : String) (s : CallServiceState) :
    CallServiceState :=
  match mget s.callObservers callId with
  | none => s
  | some obs =>
    let obs2 := obs.filter (fun c => c ≠ clientId)
    { s with callObservers := mset s.callObservers callId obs2 }

/-- Outcome of `CallService.processCallAudio`; `attempted` records whether
`processAudioForTranscription` reached the external speech call (rather than
returning `null` at its batching guard), and `delta` the transcript text it
produced. -/
structure AudioIngest where
  success : Bool
  error : Option String
  state : CallServiceState
  attempted : Bool
  delta : Option String
deriving DecidableEq

/-- The batching guard of `processAudioForTranscription`: the function returns
`null` (no transcription attempt) exactly when
`audioChunks.length % 20 !== 0 && audioChunks.length > 1`. -/
def transcriptionGuardPasses (len : Nat) : Bool :=
  !(len % 20 ≠ 0 && len > 1)

/-- `CallService.processCallAudio`: fails when the call is absent, appends the
fragment to the call's chunk buffer, then runs `processAudioForTranscription`,
whose guard allows a transcription attempt only at certain buffer lengths.
`speech` is the oracle for the external `processSpeech` capability (`none`
embeds a null/empty result, which the source replaces by the literal
fallback text). -/
def processCallAudio (callId base64Audio : String) (speech : Option String)
    (s : CallServiceState) : AudioIngest :=
  match mget s.activeCalls callId with
  | none => ⟨false, some "Call not found", s, false, none⟩
  | some call =>
    let chunks := (mget s.callAudioChunks callId).getD [] ++ [base64Audio]
    let s1 := { s with callAudioChunks := mset s.callAudioChunks callId chunks }
    if transcriptionGuardPasses chunks.length then
      let delta := speech.getD "Unintelligible audio"
      let newTranscript := call.transcript ++ " " ++ delta
      let call2 := { call with transcript := newTranscript }
      let s2 := { s1 with
                   activeCalls := mset s1.activeCalls callId call2
                   callTranscriptions :=
                     mset s1.callTranscriptions callId newTranscript }
      ⟨true, none, s2, true, some delta⟩
    else
      ⟨true, none, s1, false, none⟩

/-- Ingest a list of audio fragments in order, counting how many of them
triggered a transcription attempt. -/
def ingestMany (callId : String) (chunks : List String)
    (s : CallServiceState) : CallServiceState × Nat :=
  match chunks with
  | [] => (s, 0)
  | c :: rest =>
    let r := processCallAudio callId c none s
    let p := ingestMany callId rest r.state
    (p.1, (if r.attempted then 1 else 0) + p.2)

/-- Number of transcription attempts triggered by fragments at buffer lengths
`m+1, m+2, …, m+len`, per the source's batching guard. -/
def attemptsIn (m len : Nat) : Nat :=
  match len with
  | 0 => 0
  | l + 1 =>
    (if transcriptionGuardPasses (m + 1) then 1 else 0) + attemptsIn (m + 1) l

/-- A registry entry built by `DeviceManager.registerDevice`.  The transport
handle is embedded as `wsAlive`: whether a `ws.send` on this connection
succeeds (the source's `try`/`catch` around the write). -/
structure Device where
  id : String
  wsAlive : Bool
  connectedAt : Nat
  lastActive : Nat
  deviceInfo : List (String × String)
  isActive : Bool
deriving DecidableEq

/-- The mutable state of the `DeviceManager` singleton. -/
structure DeviceManagerState where
  devices : List (String × Device)
deriving DecidableEq

/-- `DeviceManager.registerDevice`. -/
def registerDevice (now : Nat) (id : String) (wsAlive : Bool)
    (dm : DeviceManagerState) : DeviceManagerState :=
  let device : Device :=
    { id := id, wsAlive := wsAlive, connectedAt := now, lastActive := now
      deviceInfo := [], isActive := true }
  { devices := mset dm.devices id device }

/-- `DeviceManager.unregisterDevice`: `has` check followed by `delete`; on an
absent id the map is unchanged. -/
def unregisterDevice (id : String) (dm : DeviceManagerState) :
    DeviceManagerState :=
  { devices := mdel dm.devices id }

/-- `DeviceManager.getDevice`. -/
def getDevice (id : String) (dm : DeviceManagerState) : Option Device :=
  mget dm.devices id

/-- `DeviceManager.sendToDevice`: `false` for an unknown id; otherwise the
transport write is attempted and, only on success, `lastActive` is set to the
current time (the assignment follows the write, so a throwing write leaves the
entry untouched). -/
def sendToDevice (now : Nat) (id : String) (dm : DeviceManagerState) :
    Bool × DeviceManagerState :=
  match mget dm.devices id with
  | none => (false, dm)
  | some d =>
    if d.wsAlive then
      (true, { devices := mset dm.devices id { d with lastActive := now } })
    else
      (false, dm)

/-- The per-device effect of one broadcast delivery: a successful transport
write sets `lastActive`; a throwing write leaves the entry untouched. -/
def bumpIfAlive (now : Nat) (d : Device) : Device :=
  if d.wsAlive then { d with lastActive := now } else d

/-- `DeviceManager.broadcastToAll`: per-device `try` write; each successful
write bumps that device's `lastActive` and the success counter, each failing
write only the failure counter. -/
def broadcastToAll (now : Nat) (dm : DeviceManagerState) :
    (Nat × Nat) × DeviceManagerState :=
  let devices2 := dm.devices.map (fun p => (p.1, bumpIfAlive now p.2))
  let successCount := (dm.devices.filter (fun p => p.2.wsAlive)).length
  let failedCount := (dm.devices.filter (fun p => !p.2.wsAlive)).length
  ((successCount, failedCount), { devices := devices2 })

/-- `DeviceManager.cleanInactiveDevices`: removes every device whose
`now - lastActive` strictly exceeds the threshold (the source's default is
`30 * 60 * 1000` ms), returning the number removed. -/
def cleanInactiveDevices (now maxInactiveTime : Nat)
    (dm : DeviceManagerState) : Nat × DeviceManagerState :=
  let kept := dm.devices.filter
    (fun p => !(decide (now - p.2.lastActive > maxInactiveTime)))
  (dm.devices.length - kept.length, { devices := kept })

/-- Combined server state: the two shared mutable singletons. -/
structure SystemState where
  dm : DeviceManagerState
  cs : CallServiceState
deriving DecidableEq

/-- The WebSocket `close` handler of the server entry point: its whole body is
`deviceManager.unregisterDevice(connectionId)`. -/
def handleClose (connectionId : String) (sys : SystemState) : SystemState :=
  { sys with dm := unregisterDevice connectionId sys.dm }

/-- The `call_transcript` message object built by
`CallService.broadcastTranscriptionUpdate`. -/
structure TranscriptMsg where
  type : String
  callId : String
  transcript : String
  isFinal : Bool
  timestamp : Nat
deriving DecidableEq

/-- The message literal of `broadcastTranscriptionUpdate`. -/
def mkTranscriptMsg (now : Nat) (callId transcript : String)
    (isFinal : Bool) : TranscriptMsg :=
  ⟨"call_transcript", callId, transcript, isFinal, now⟩

/-- The observer loop of the broadcast: for each subscriber id a
`deviceManager.getDevice` lookup, and a send only when a registry entry
exists (`client && client.ws`); an absent entry is skipped. -/
def deliverToObservers (dm : DeviceManagerState) (msg : TranscriptMsg) :
    List String → List (String × TranscriptMsg)
  | [] => []
  | cid :: rest =>
    match mget dm.devices cid with
    | some _ => (cid, msg) :: deliverToObservers dm msg rest
    | none => deliverToObservers dm msg rest

/-- `CallService.broadcastTranscriptionUpdate`: no-op without an observer set;
otherwise delivers the `call_transcript` message to each subscriber found in
the registry.  Returns the list of directed deliveries. -/
def broadcastTranscriptionUpdate (now : Nat) (callId transcript : String)
    (isFinal : Bool) (dm : DeviceManagerState) (cs : CallServiceState) :
    List (String × TranscriptMsg) :=
  match mget cs.callObservers callId with
  | none => []
  | some obs => deliverToObservers dm (mkTranscriptMsg now callId transcript isFinal) obs

/-- A parsed inbound transport message: its `type` tag and the optional fields
the handlers read.  A field the sender omitted is `none`. -/
structure RawMsg where
  type : String
  callId : Option String
  phoneNumber : Option String
  status : Option String
  audio : Option String
  isIncoming : Option Bool
deriving DecidableEq

/-- The handler a message is dispatched to by the server's `switch` (plus the
pre-switch `init` branch). -/
inductive Handler where
  | initDevice
  | notification
  | sms
  | call
  | callAudio
  | callRegister
  | callStatus
  | callObserve
  | command
deriving DecidableEq

/-- A reply sent back on the inbound connection. -/
structure Reply where
  type : String
  message : String
deriving DecidableEq

/-- Routing outcome: which handler (if any) was dispatched, and the replies
sent back to the sender. -/
structure RouteOutcome where
  dispatched : Option Handler
  replies : List Reply
deriving DecidableEq

/-- The `ws.on message` dispatch for a successfully parsed message: the
`data.type === 'init'` early return followed by the `switch`.  No branch
validates the presence of any field, and the `default` branch only logs a
warning — it sends no reply. -/
def routeParsed (data : RawMsg) : RouteOutcome :=
  if data.type = "init" then ⟨some Handler.initDevice, []⟩
  else if data.type = "notification" then ⟨some Handler.notification, []⟩
  else if data.type = "sms" then ⟨some Handler.sms, []⟩
  else if data.type = "call" then ⟨some Handler.call, []⟩
  else if data.type = "call_audio" then ⟨some Handler.callAudio, []⟩
  else if data.type = "call_register" then ⟨some Handler.callRegister, []⟩
  else if data.type = "call_status" then ⟨some Handler.callStatus, []⟩
  else if data.type = "call_observe" then ⟨some Handler.callObserve, []⟩
  else if data.type = "command" then ⟨some Handler.command, []⟩
  else ⟨none, []⟩

/-- The full `ws.on message` handler: a message that fails to parse throws in
`JSON.parse` and the `catch` block replies with the generic error message;
a parsed message goes through the dispatch. -/
def handleMessage (parsed : Option RawMsg) : RouteOutcome :=
  match parsed with
  | none => ⟨none, [⟨"error", "Failed to process message"⟩]⟩
  | some data => routeParsed data

/-- The message types the `ws.on message` handler knows. -/
def isKnownType (t : String) : Bool :=
  t = "init" || t = "notification" || t = "sms" || t = "call" ||
  t = "call_audio" || t = "call_register" || t = "call_status" ||
  t = "call_observe" || t = "command"

/-- Whether a `{success, ...}` result reports success. -/
def CallResult.isOk : CallResult → Bool
  | CallResult.ok _ => true
  | CallResult.err _ => false

/-- Length of a call's audio-chunk buffer (empty when absent, as in the
source's `|| []` fallback). -/
def bufLen (s : CallServiceState) (callId : String) : Nat :=
  ((mget s.callAudioChunks callId).getD []).length

/-- Sample state: call `c1` registered at time 0. -/
def sampleReg : CallServiceState :=
  (registerCall 0 "c1" "+15551234567" "d1" true emptyCallService).2

/-- Sample state: `c1` moved to `ended` at time 1. -/
def sampleEnded : CallServiceState :=
  (updateCallStatus 1 "c1" "ended" sampleReg).state

/-- The session record stored for `c1` in `sampleEnded`. -/
def sampleEndedCall : Call :=
  { callId := "c1", phoneNumber := "+15551234567", deviceId := "d1"
    startTime := 0, isIncoming := true, status := "ended", transcript := ""
    processingTime := 0, answeredAt := none, endedAt := some 1
    duration := some 0, summary := none }

/-- Sample state: the delayed post-call cleanup has fired for `c1`. -/
def sampleCleaned : CallServiceState := cleanupCall "c1" sampleEnded

/-- Sample registry: observer connections `obs1` and `obs2`. -/
def dmC : DeviceManagerState :=
  registerDevice 0 "obs2" true (registerDevice 0 "obs1" true ⟨[]⟩)

/-- Sample call-service state: `obs1`, `obs2` and the unregistered id
`ghost` subscribed to `c1`. -/
def csC : CallServiceState :=
  addCallObserver "c1" "ghost"
    (addCallObserver "c1" "obs2" (addCallObserver "c1" "obs1" sampleReg))

/-- Sample combined state: two observer connections, `obs1` subscribed to
`c1` and `c2`, `obs2` subscribed to `c1`. -/
def sampleSystem : SystemState :=
  { dm := dmC
    cs := addCallObserver "c2" "obs1"
            (addCallObserver "c1" "obs2" (addCallObserver "c1" "obs1" sampleReg)) }

/-- Sample registry for directed-send claims: `dev1` with a live transport,
`dead` with a failing one. -/
def dmS : DeviceManagerState :=
  registerDevice 0 "dead" false (registerDevice 0 "dev1" true ⟨[]⟩)

/-- The registry entry of `dev1` in `dmS`. -/
def dev1rec : Device :=
  { id := "dev1", wsAlive := true, connectedAt := 0, lastActive := 0
    deviceInfo := [], isActive := true }

/-- An inbound message with an unknown type tag. -/
def bogusMsg : RawMsg := ⟨"bogus", none, none, none, none, none⟩

/-- A `call_audio` message with every payload field missing. -/
def bareCallAudioMsg : RawMsg := ⟨"call_audio", none, none, none, none, none⟩

theorem mget_filter_keep {α : Type} (m : List (String × α)) (k : String)
    (v : α) (p : String × α → Bool) (h : mget m k = some v)
    (hp : p (k, v) = true) : mget (m.filter p) k = some v := by
  induction m with
  | nil => simp [mget] at h
  | cons q rest ih =>
    obtain ⟨k2, v2⟩ := q
    by_cases hk : k2 = k
    · subst hk
      simp [mget] at h
      subst h
      simp [List.filter_cons, hp, mget]
    · simp [mget, hk] at h
      rw [List.filter_cons]
      by_cases hq : p (k2, v2) = true
      · simp [hq, mget, hk, ih h]
      · simp [hq, ih h]

theorem mget_map_pair {α β : Type} (f : α → β) (m : List (String × α))
    (k : String) :
    mget (m.map (fun p => (p.1, f p.2))) k = (mget m k).map f := by
  induction m with
  | nil => simp [mget]
  | cons q rest ih =>
    obtain ⟨k2, v2⟩ := q
    by_cases hk : k2 = k <;> simp [mget, hk, ih]

theorem deliver_mem_of (dm : DeviceManagerState) (msg : TranscriptMsg)
    (obs : List String) (cid : String) (h1 : cid ∈ obs)
    (h2 : mhas dm.devices cid = true) :
    (cid, msg) ∈ deliverToObservers dm msg obs := by
  induction obs with
  | nil => simp at h1
  | cons a rest ih =>
    rcases List.mem_cons.mp h1 with h | h
    · subst h
      rcases hd : mget dm.devices cid with _ | d
      · simp [mhas, hd] at h2
      · simp [deliverToObservers, hd]
    · rcases hd : mget dm.devices a with _ | d <;>
        simp [deliverToObservers, hd, ih h]

theorem deliver_mem_inv (dm : DeviceManagerState) (msg : TranscriptMsg)
    (obs : List String) (cid : String) (m : TranscriptMsg)
    (h : (cid, m) ∈ deliverToObservers dm msg obs) :
    m = msg ∧ mhas dm.devices cid = true := by
  induction obs with
  | nil => simp [deliverToObservers] at h
  | cons a rest ih =>
    rcases hd : mget dm.devices a with _ | d
    · rw [deliverToObservers, hd] at h
      exact ih h
    · rw [deliverToObservers, hd] at h
      rcases List.mem_cons.mp h with h2 | h2
      · injection h2 with hc hm
        subst hc
        exact ⟨hm.symm ▸ rfl, by simp [mhas, hd]⟩
      · exact ih h2

theorem deliver_skip (dm : DeviceManagerState) (msg : TranscriptMsg)
    (pre post : List String) (bad : String)
    (h : mget dm.devices bad = none) :
    deliverToObservers dm msg (pre ++ bad :: post) =
      deliverToObservers dm msg (pre ++ post) := by
  induction pre with
  | nil => simp [deliverToObservers, h]
  | cons a rest ih =>
    rcases hd : mget dm.devices a with _ | d <;>
      simp [deliverToObservers, hd, ih]

/-- The session record stored by an `answered` update over base record `c`. -/
def answeredRec (now : Nat) (c : Call) : Call :=
  { c with status := "answered", answeredAt := some now }

/-- The session record stored by an `ended` update over base record `c`. -/
def endedRec (now : Nat) (c : Call) : Call :=
  { c with
      status := "ended"
      endedAt := some now
      duration := some ((now - c.answeredAt.getD c.startTime + 500) / 1000) }

theorem updateCallStatus_answered_eq (now : Nat) (cid : String)
    (s : CallServiceState) (c : Call) (hc : mget s.activeCalls cid = some c) :
    updateCallStatus now cid "answered" s =
      ⟨CallResult.ok (answeredRec now c),
       { s with activeCalls := mset s.activeCalls cid (answeredRec now c) },
       false⟩ := by
  simp [updateCallStatus, hc, answeredRec]

theorem updateCallStatus_ended_eq (now : Nat) (cid : String)
    (s : CallServiceState) (c : Call) (hc : mget s.activeCalls cid = some c) :
    updateCallStatus now cid "ended" s =
      ⟨CallResult.ok (endedRec now c),
       { s with activeCalls := mset s.activeCalls cid (endedRec now c) },
       true⟩ := by
  simp [updateCallStatus, hc, endedRec]

/-- C1 counterexample: with `c1` present (status `ended`), a second
`registerCall("c1", …)` returns success rather than a `DuplicateError`, and it
mutates the stored session (status reset to `ringing`). -/
theorem registerCall_duplicate_cex :
    (registerCall 5 "c1" "+15551234567" "d1" true sampleEnded).1.isOk = true ∧
    getCall "c1" (registerCall 5 "c1" "+15551234567" "d1" true sampleEnded).2 ≠
      getCall "c1" sampleEnded ∧
    (getCall "c1" (registerCall 5 "c1" "+15551234567" "d1" true
        sampleEnded).2).map Call.status = some "ringing" ∧
    (getCall "c1" sampleEnded).map Call.status = some "ended" := by decide

/-- C1 (amended): when `cid` is already present in the Call Session Store, a
second `registerCall(cid, …)` does not fail — it returns success and replaces
the existing session with a freshly initialized one (status `ringing`, empty
transcript, empty audio buffer, new start time). -/
theorem registerCall_overwrites (now : Nat) (cid pn did : String) (inc : Bool)
    (s : CallServiceState) (h : mhas s.activeCalls cid = true) :
    (registerCall now cid pn did inc s).1 =
      CallResult.ok (freshCall now cid pn did inc) ∧
    mget (registerCall now cid pn did inc s).2.activeCalls cid =
      some (freshCall now cid pn did inc) ∧
    mget (registerCall now cid pn did inc s).2.callAudioChunks cid = some [] ∧
    mget (registerCall now cid pn did inc s).2.callTranscriptions cid = some "" := by
  refine ⟨rfl, ?_, ?_, ?_⟩ <;> simp [registerCall, mget_mset_self]

/-- Witness for C1: the amended statement applied to the concrete state in
which `c1` is already registered. -/
theorem registerCall_overwrites_witness :
    mhas sampleReg.activeCalls "c1" = true ∧
    ((registerCall 5 "c1" "+15550000000" "d2" false sampleReg).1 =
      CallResult.ok (freshCall 5 "c1" "+15550000000" "d2" false) ∧
     mget (registerCall 5 "c1" "+15550000000" "d2" false sampleReg).2.activeCalls "c1" =
       some (freshCall 5 "c1" "+15550000000" "d2" false) ∧
     mget (registerCall 5 "c1" "+15550000000" "d2" false sampleReg).2.callAudioChunks "c1" =
       some [] ∧
     mget (registerCall 5 "c1" "+15550000000" "d2" false sampleReg).2.callTranscriptions "c1" =
       some "") :=
  ⟨by decide, registerCall_overwrites 5 "c1" "+15550000000" "d2" false sampleReg (by decide)⟩

/-- C2 counterexample: on a call whose status is `ended`, an update back to
`ringing` succeeds (no `InvalidTransitionError`), and a reader of the store
then observes the backward step. -/
theorem updateCallStatus_backward_cex :
    (getCall "c1" sampleEnded).map Call.status = some "ended" ∧
    (updateCallStatus 2 "c1" "ringing" sampleEnded).result.isOk = true ∧
    (getCall "c1" (updateCallStatus 2 "c1" "ringing"
        sampleEnded).state).map Call.status = some "ringing" := by decide

/-- C2 (amended): `updateCallStatus` performs no transition validation: for a
registered call it succeeds with any new status string and stores it verbatim
(so backward steps are observable); it fails only with `Call not found` when
the call id is absent, leaving the state unchanged. -/
theorem updateCallStatus_no_validation (now : Nat) (cid st : String)
    (s : CallServiceState) :
    (mhas s.activeCalls cid = true →
      (updateCallStatus now cid st s).result.isOk = true ∧
      (getCall cid (updateCallStatus now cid st s).state).map Call.status =
        some st) ∧
    (mhas s.activeCalls cid = false →
      (updateCallStatus now cid st s).result = CallResult.err "Call not found" ∧
      (updateCallStatus now cid st s).state = s) := by
  constructor
  · intro h
    rcases hc : mget s.activeCalls cid with _ | c
    · simp [mhas, hc] at h
    · by_cases h1 : st = "answered"
      · subst h1
        simp [updateCallStatus, hc, getCall, mget_mset_self, CallResult.isOk]
      · by_cases h2 : st = "ended"
        · subst h2
          simp [updateCallStatus, hc, getCall, mget_mset_self, CallResult.isOk]
        · simp [updateCallStatus, hc, h1, h2, getCall, mget_mset_self,
            CallResult.isOk]
  · intro h
    rcases hc : mget s.activeCalls cid with _ | c
    · simp [updateCallStatus, hc]
    · simp [mhas, hc] at h

/-- Witness for C2: the amended statement applied to the ended call `c1`,
updated backward to `ringing`. -/
theorem updateCallStatus_no_validation_witness :
    mhas sampleEnded.activeCalls "c1" = true ∧
    ((updateCallStatus 2 "c1" "ringing" sampleEnded).result.isOk = true ∧
     (getCall "c1" (updateCallStatus 2 "c1" "ringing"
         sampleEnded).state).map Call.status = some "ringing") :=
  ⟨by decide, (updateCallStatus_no_validation 2 "c1" "ringing" sampleEnded).1 (by decide)⟩

/-- C3 counterexample: two duplicate `ended` status updates for `c1` each
invoke `finalizeCallProcessing` — the finalize step runs twice, not at most
once. -/
theorem finalize_duplicate_ended_cex :
    (updateCallStatus 1 "c1" "ended" sampleReg).finalizeTriggered = true ∧
    (updateCallStatus 2 "c1" "ended" sampleEnded).finalizeTriggered = true := by
  decide

/-- C3 (amended): there is no one-shot finalize guard: every `ended` status
update on a registered call invokes `finalizeCallProcessing`, and the call
stays registered afterwards, so each duplicate `ended` update triggers the
finalize step again. -/
theorem finalize_on_every_ended (now : Nat) (cid : String)
    (s : CallServiceState) (h : mhas s.activeCalls cid = true) :
    (updateCallStatus now cid "ended" s).finalizeTriggered = true ∧
    mhas (updateCallStatus now cid "ended" s).state.activeCalls cid = true := by
  rcases hc : mget s.activeCalls cid with _ | c
  · simp [mhas, hc] at h
  · constructor <;> simp [updateCallStatus, hc, mhas, mget_mset_self]

/-- Witness for C3: the amended statement applied to the already-ended call
`c1`, on which a duplicate `ended` update arrives. -/
theorem finalize_on_every_ended_witness :
    mhas sampleEnded.activeCalls "c1" = true ∧
    ((updateCallStatus 2 "c1" "ended" sampleEnded).finalizeTriggered = true ∧
     mhas (updateCallStatus 2 "c1" "ended" sampleEnded).state.activeCalls "c1" =
       true) :=
  ⟨by decide, finalize_on_every_ended 2 "c1" sampleEnded (by decide)⟩

/-- C4: registration initializes status `ringing` with no duration; the
`answered` update stamps `answeredAt` and still computes no duration; the
`ended` update (and only it) stamps `endedAt`, computes
`duration = round((endedAt - answeredAt) / 1000)` and triggers finalization,
so an `ended` update 42000 ms after `answeredAt` yields `duration = 42`. -/
theorem scenarioA_duration (t0 t1 t2 : Nat) (cid pn did : String) (inc : Bool)
    (s0 : CallServiceState) (h : t2 = t1 + 42000) :
    (getCall cid (registerCall t0 cid pn did inc s0).2).map Call.status =
      some "ringing" ∧
    (getCall cid (registerCall t0 cid pn did inc s0).2).map Call.duration =
      some none ∧
    (updateCallStatus t1 cid "answered"
      (registerCall t0 cid pn did inc s0).2).finalizeTriggered = false ∧
    (getCall cid (updateCallStatus t1 cid "answered"
      (registerCall t0 cid pn did inc s0).2).state).map Call.answeredAt =
      some (some t1) ∧
    (getCall cid (updateCallStatus t1 cid "answered"
      (registerCall t0 cid pn did inc s0).2).state).map Call.duration =
      some none ∧
    (updateCallStatus t2 cid "ended" (updateCallStatus t1 cid "answered"
      (registerCall t0 cid pn did inc s0).2).state).finalizeTriggered = true ∧
    (getCall cid (updateCallStatus t2 cid "ended" (updateCallStatus t1 cid
      "answered" (registerCall t0 cid pn did inc s0).2).state).state).map
      Call.endedAt = some (some t2) ∧
    (getCall cid (updateCallStatus t2 cid "ended" (updateCallStatus t1 cid
      "answered" (registerCall t0 cid pn did inc s0).2).state).state).map
      Call.duration = some (some 42) := by
  have h1 : mget (registerCall t0 cid pn did inc s0).2.activeCalls cid =
      some (freshCall t0 cid pn did inc) := by
    simp [registerCall, mget_mset_self]
  have h2 := updateCallStatus_answered_eq t1 cid _ _ h1
  have h3 : mget (updateCallStatus t1 cid "answered"
      (registerCall t0 cid pn did inc s0).2).state.activeCalls cid =
      some (answeredRec t1 (freshCall t0 cid pn did inc)) := by
    rw [h2]
    exact mget_mset_self _ _ _
  have h4 := updateCallStatus_ended_eq t2 cid _ _ h3
  subst h
  refine ⟨?_, ?_, ?_, ?_, ?_, ?_, ?_, ?_⟩
  · simp [getCall, h1, freshCall]
  · simp [getCall, h1, freshCall]
  · rw [h2]
  · simp [getCall, h3, answeredRec]
  · simp [getCall, h3, answeredRec, freshCall]
  · rw [h4]
  · simp [getCall, h4, mget_mset_self, endedRec]
  · simp [getCall, h4, mget_mset_self, endedRec, answeredRec, freshCall,
      Nat.add_sub_cancel_left]

/-- Witness for C4: scenario A at concrete times — registered at 0, answered
at 1000, ended at 43000 (42 simulated seconds later), duration 42. -/
theorem scenarioA_duration_witness :
    43000 = 1000 + 42000 ∧
    ((getCall "c1" (registerCall 0 "c1" "+15551234567" "d1" true
        emptyCallService).2).map Call.status = some "ringing" ∧
     (getCall "c1" (registerCall 0 "c1" "+15551234567" "d1" true
        emptyCallService).2).map Call.duration = some none ∧
     (updateCallStatus 1000 "c1" "answered" (registerCall 0 "c1"
        "+15551234567" "d1" true emptyCallService).2).finalizeTriggered = false ∧
     (getCall "c1" (updateCallStatus 1000 "c1" "answered" (registerCall 0 "c1"
        "+15551234567" "d1" true emptyCallService).2).state).map
        Call.answeredAt = some (some 1000) ∧
     (getCall "c1" (updateCallStatus 1000 "c1" "answered" (registerCall 0 "c1"
        "+15551234567" "d1" true emptyCallService).2).state).map
        Call.duration = some none ∧
     (updateCallStatus 43000 "c1" "ended" (updateCallStatus 1000 "c1"
        "answered" (registerCall 0 "c1" "+15551234567" "d1" true
        emptyCallService).2).state).finalizeTriggered = true ∧
     (getCall "c1" (updateCallStatus 43000 "c1" "ended" (updateCallStatus 1000
        "c1" "answered" (registerCall 0 "c1" "+15551234567" "d1" true
        emptyCallService).2).state).state).map Call.endedAt =
        some (some 43000) ∧
     (getCall "c1" (updateCallStatus 43000 "c1" "ended" (updateCallStatus 1000
        "c1" "answered" (registerCall 0 "c1" "+15551234567" "d1" true
        emptyCallService).2).state).state).map Call.duration =
        some (some 42)) :=
  ⟨rfl, scenarioA_duration 0 1000 43000 "c1" "+15551234567" "d1" true
    emptyCallService rfl⟩

theorem processCallAudio_step (cid a : String) (sp : Option String)
    (s : CallServiceState) (c : Call)
    (hc : mget s.activeCalls cid = some c) :
    (processCallAudio cid a sp s).attempted =
      transcriptionGuardPasses (bufLen s cid + 1) ∧
    (processCallAudio cid a sp s).success = true ∧
    mhas (processCallAudio cid a sp s).state.activeCalls cid = true ∧
    bufLen (processCallAudio cid a sp s).state cid = bufLen s cid + 1 := by
  by_cases hg : transcriptionGuardPasses (bufLen s cid + 1) = true
  · simp only [bufLen] at hg
    refine ⟨?_, ?_, ?_, ?_⟩ <;>
      simp [processCallAudio, hc, hg, bufLen, mhas, mget_mset_self]
  · simp only [bufLen, Bool.not_eq_true] at hg
    refine ⟨?_, ?_, ?_, ?_⟩ <;>
      simp [processCallAudio, hc, hg, bufLen, mhas, mget_mset_self]

theorem ingestMany_count (cid : String) (cs : List String)
    (s : CallServiceState) (h : mhas s.activeCalls cid = true) :
    (ingestMany cid cs s).2 = attemptsIn (bufLen s cid) cs.length ∧
    mhas (ingestMany cid cs s).1.activeCalls cid = true := by
  induction cs generalizing s with
  | nil => exact ⟨rfl, h⟩
  | cons a rest ih =>
    rcases hc : mget s.activeCalls cid with _ | c
    · simp [mhas, hc] at h
    · have step := processCallAudio_step cid a none s c hc
      have recur := ih (processCallAudio cid a none s).state step.2.2.1
      constructor
      · show (if (processCallAudio cid a none s).attempted then 1 else 0) +
          (ingestMany cid rest (processCallAudio cid a none s).state).2 =
          attemptsIn (bufLen s cid) (rest.length + 1)
        rw [step.1, recur.1, step.2.2.2, attemptsIn]
      · exact recur.2

/-- C5 counterexample: on a freshly registered call, the very first ingested
fragment already triggers a transcription attempt (the guard
`length % 20 !== 0 && length > 1` does not fire at length 1), so 19 fragments
trigger one attempt, not zero. -/
theorem transcription_first_fragment_cex :
    (processCallAudio "c1" "x" none sampleReg).attempted = true ∧
    (ingestMany "c1" (List.replicate 19 "x") sampleReg).2 = 1 := by decide

/-- C5 (amended): a transcription attempt is triggered exactly when the
buffer length after the append is 1 or a multiple of 20: the first fragment
of a call triggers one attempt, fragments 2–19 are buffered without an
attempt, and the 20th triggers exactly one more (19 fragments → 1 attempt,
20 fragments → 2 attempts). -/
theorem transcription_batching (now : Nat) (cid pn did : String) (inc : Bool)
    (s0 : CallServiceState) (cs : List String) :
    (ingestMany cid cs (registerCall now cid pn did inc s0).2).2 =
      attemptsIn 0 cs.length ∧
    (∀ n, 0 < n → (transcriptionGuardPasses n = true ↔ n = 1 ∨ n % 20 = 0)) ∧
    attemptsIn 0 19 = 1 ∧ attemptsIn 0 20 = 2 := by
  have hreg : mhas (registerCall now cid pn did inc s0).2.activeCalls cid =
      true := by
    simp [registerCall, mhas, mget_mset_self]
  have hbuf : bufLen (registerCall now cid pn did inc s0).2 cid = 0 := by
    simp [bufLen, registerCall, mget_mset_self]
  refine ⟨?_, ?_, by decide, by decide⟩
  · rw [(ingestMany_count cid cs _ hreg).1, hbuf]
  · intro n hn
    simp only [transcriptionGuardPasses, Bool.not_eq_true', Bool.and_eq_false_iff,
      decide_eq_false_iff_not, not_not, gt_iff_lt, not_lt]
    omega

/-- Witness for C5: the batching statement applied to a concrete run of 20
fragments on call `c1`, and the guard characterization at length 20. -/
theorem transcription_batching_witness :
    (0 < 20 ∧ (transcriptionGuardPasses 20 = true ↔ 20 = 1 ∨ 20 % 20 = 0)) ∧
    (ingestMany "c1" (List.replicate 20 "x")
      (registerCall 0 "c1" "+15551234567" "d1" true emptyCallService).2).2 =
      attemptsIn 0 (List.replicate 20 "x").length :=
  ⟨⟨by decide,
    (transcription_batching 0 "c1" "+15551234567" "d1" true emptyCallService
      (List.replicate 20 "x")).2.1 20 (by decide)⟩,
   (transcription_batching 0 "c1" "+15551234567" "d1" true emptyCallService
      (List.replicate 20 "x")).1⟩

/-- C6 counterexample: `obs1` is registered and subscribed to `c1`; after its
connection closes it is gone from the registry but still present in the
observer set of `c1` — the disconnect handler prunes no observer sets. -/
theorem handleClose_observers_cex :
    getDevice "obs1" sampleSystem.dm ≠ none ∧
    "obs1" ∈ (mget sampleSystem.cs.callObservers "c1").getD [] ∧
    getDevice "obs1" (handleClose "obs1" sampleSystem).dm = none ∧
    "obs1" ∈ (mget (handleClose "obs1" sampleSystem).cs.callObservers "c1").getD [] := by
  decide

/-- C6 (amended): disconnecting a connection removes it from the connection
registry only, leaving every other registry entry untouched and the whole
call-service state — including every per-call observer set — unchanged
(stale observer entries are later skipped at publish time). -/
theorem handleClose_registry_only (sys : SystemState) (id j : String)
    (h : j ≠ id) :
    getDevice id (handleClose id sys).dm = none ∧
    getDevice j (handleClose id sys).dm = getDevice j sys.dm ∧
    (handleClose id sys).cs = sys.cs := by
  refine ⟨?_, ?_, rfl⟩
  · simp [getDevice, handleClose, unregisterDevice, mget_mdel_self]
  · simp [getDevice, handleClose, unregisterDevice, mget_mdel_ne _ _ _ h]

/-- Witness for C6: the amended statement applied to the concrete two-observer
system, closing `obs1` and checking `obs2`. -/
theorem handleClose_registry_only_witness :
    ("obs2" : String) ≠ "obs1" ∧
    (getDevice "obs1" (handleClose "obs1" sampleSystem).dm = none ∧
     getDevice "obs2" (handleClose "obs1" sampleSystem).dm =
       getDevice "obs2" sampleSystem.dm ∧
     (handleClose "obs1" sampleSystem).cs = sampleSystem.cs) :=
  ⟨by decide, handleClose_registry_only sampleSystem "obs1" "obs2" (by decide)⟩

/-- C7 counterexample: a message of unknown type `bogus` produces no reply at
all (it is logged and dropped, not acknowledged with an error), and a
`call_audio` message with every required field missing is dispatched to the
audio handler with no validation. -/
theorem router_unknown_type_cex :
    routeParsed bogusMsg = ⟨none, []⟩ ∧
    (routeParsed bareCallAudioMsg).dispatched = some Handler.callAudio := by
  decide

/-- C7 (amended): the router silently drops unknown-type messages (no handler,
no reply); known types such as `call_audio` are dispatched without any check
that their required fields are present; only a message that fails to parse is
acknowledged with the generic error reply. -/
theorem router_behavior (m : RawMsg) (p : Option RawMsg) :
    (isKnownType m.type = false → routeParsed m = ⟨none, []⟩) ∧
    (m.type = "call_audio" →
      (routeParsed m).dispatched = some Handler.callAudio ∧
      (routeParsed m).replies = []) ∧
    (p = none →
      handleMessage p = ⟨none, [⟨"error", "Failed to process message"⟩]⟩) := by
  refine ⟨?_, ?_, ?_⟩
  · intro h
    unfold routeParsed
    split_ifs with h1 h2 h3 h4 h5 h6 h7 h8 h9 <;> simp_all [isKnownType]
  · intro h
    simp [routeParsed, h]
  · intro h
    subst h
    rfl

/-- Witness for C7: the amended statement applied to the unknown-type message,
the field-less `call_audio` message, and an unparseable frame. -/
theorem router_behavior_witness :
    (isKnownType bogusMsg.type = false ∧ routeParsed bogusMsg = ⟨none, []⟩) ∧
    (bareCallAudioMsg.type = "call_audio" ∧
      (routeParsed bareCallAudioMsg).dispatched = some Handler.callAudio ∧
      (routeParsed bareCallAudioMsg).replies = []) ∧
    ((none : Option RawMsg) = none ∧
      handleMessage (none : Option RawMsg) =
        ⟨none, [⟨"error", "Failed to process message"⟩]⟩) :=
  ⟨⟨by decide, (router_behavior bogusMsg none).1 (by decide)⟩,
   ⟨rfl, (router_behavior bareCallAudioMsg none).2.1 rfl⟩,
   ⟨rfl, (router_behavior bogusMsg none).2.2 rfl⟩⟩

/-- C8: when a transcript delta is published for a call with an observer set,
every subscriber found in the registry receives the one `call_transcript`
message (same `callId`, same `transcript`); every delivered message is that
message and goes only to registered subscribers; and a subscriber id missing
from the registry is skipped with delivery to the others exactly as if it
were not subscribed. -/
theorem broadcastTranscript_spec (now : Nat) (callId transcript : String)
    (isFinal : Bool) (dm : DeviceManagerState) (cs : CallServiceState)
    (obs : List String) (h : mget cs.callObservers callId = some obs) :
    (∀ cid, cid ∈ obs → mhas dm.devices cid = true →
      (cid, mkTranscriptMsg now callId transcript isFinal) ∈
        broadcastTranscriptionUpdate now callId transcript isFinal dm cs) ∧
    (∀ cid m,
      (cid, m) ∈ broadcastTranscriptionUpdate now callId transcript isFinal dm cs →
      m = mkTranscriptMsg now callId transcript isFinal ∧
      mhas dm.devices cid = true) ∧
    (∀ bad pre post, mget dm.devices bad = none → obs = pre ++ bad :: post →
      broadcastTranscriptionUpdate now callId transcript isFinal dm cs =
        deliverToObservers dm (mkTranscriptMsg now callId transcript isFinal)
          (pre ++ post)) := by
  have hb : broadcastTranscriptionUpdate now callId transcript isFinal dm cs =
      deliverToObservers dm (mkTranscriptMsg now callId transcript isFinal)
        obs := by
    simp [broadcastTranscriptionUpdate, h]
  refine ⟨?_, ?_, ?_⟩
  · intro cid hmem hreg
    rw [hb]
    exact deliver_mem_of dm _ obs cid hmem hreg
  · intro cid m hm
    rw [hb] at hm
    exact deliver_mem_inv dm _ obs cid m hm
  · intro bad pre post hbad hobs
    rw [hb, hobs]
    exact deliver_skip dm _ pre post bad hbad

/-- Witness for C8: scenario C — `obs1` and `obs2` registered and subscribed
to `c1` together with the unregistered id `ghost`; a published delta reaches
`obs2` as the `call_transcript` message. -/
theorem broadcastTranscript_spec_witness :
    mget csC.callObservers "c1" = some ["obs1", "obs2", "ghost"] ∧
    ("obs2" ∈ ["obs1", "obs2", "ghost"] ∧ mhas dmC.devices "obs2" = true) ∧
    ("obs2", mkTranscriptMsg 7 "c1" "hello there" false) ∈
      broadcastTranscriptionUpdate 7 "c1" "hello there" false dmC csC :=
  ⟨by decide, ⟨by decide, by decide⟩,
   (broadcastTranscript_spec 7 "c1" "hello there" false dmC csC
      ["obs1", "obs2", "ghost"] (by decide)).1 "obs2" (by decide) (by decide)⟩

/-- C9 counterexample: call `c1` is `ended` and its post-end cleanup has run
(audio buffer discarded), yet it still appears in `getActiveCalls`. -/
theorem getActiveCalls_expired_cex :
    (getCall "c1" sampleCleaned).map Call.status = some "ended" ∧
    mget sampleCleaned.callAudioChunks "c1" = none ∧
    (getActiveCalls sampleCleaned).map Call.callId = ["c1"] := by decide

/-- C9 (amended): `getActiveCalls` returns every registered session with no
status or expiry filter; the delayed cleanup removes only the session's audio
buffer, leaving the session itself listed — including terminal sessions whose
grace window has elapsed. -/
theorem getActiveCalls_unfiltered (s : CallServiceState) (cid : String)
    (c : Call) (h : mget s.activeCalls cid = some c) :
    c ∈ getActiveCalls s ∧
    (cleanupCall cid s).activeCalls = s.activeCalls ∧
    c ∈ getActiveCalls (cleanupCall cid s) ∧
    mget (cleanupCall cid s).callAudioChunks cid = none := by
  refine ⟨mem_map_snd_of_mget _ _ _ h, rfl, ?_, mget_mdel_self _ _⟩
  show c ∈ List.map Prod.snd s.activeCalls
  exact mem_map_snd_of_mget _ _ _ h

/-- Witness for C9: the amended statement applied to the concrete ended call
`c1`. -/
theorem getActiveCalls_unfiltered_witness :
    mget sampleEnded.activeCalls "c1" = some sampleEndedCall ∧
    (sampleEndedCall ∈ getActiveCalls sampleEnded ∧
     (cleanupCall "c1" sampleEnded).activeCalls = sampleEnded.activeCalls ∧
     sampleEndedCall ∈ getActiveCalls (cleanupCall "c1" sampleEnded) ∧
     mget (cleanupCall "c1" sampleEnded).callAudioChunks "c1" = none) :=
  ⟨by decide, getActiveCalls_unfiltered sampleEnded "c1" sampleEndedCall (by decide)⟩

/-- C10: a successful directed send sets only `lastActive` (to the send time)
on the target's registry entry and leaves all other entries alone; a failed
send changes nothing; each successful per-connection broadcast delivery
updates that entry the same way; and after a successful send at time `now`,
the connection survives the inactivity eviction at any `now2` within the
default 30-minute threshold. -/
theorem sendToDevice_activity (dm : DeviceManagerState) (now now2 : Nat)
    (id : String) :
    (∀ d, mget dm.devices id = some d → d.wsAlive = true →
      (sendToDevice now id dm).1 = true ∧
      mget (sendToDevice now id dm).2.devices id =
        some { d with lastActive := now } ∧
      (∀ j, j ≠ id →
        mget (sendToDevice now id dm).2.devices j = mget dm.devices j) ∧
      (now2 ≤ now + 30 * 60 * 1000 →
        mget (cleanInactiveDevices now2 (30 * 60 * 1000)
          (sendToDevice now id dm).2).2.devices id =
          some { d with lastActive := now })) ∧
    ((sendToDevice now id dm).1 = false → (sendToDevice now id dm).2 = dm) ∧
    (∀ k d, mget dm.devices k = some d →
      mget (broadcastToAll now dm).2.devices k = some (bumpIfAlive now d)) := by
  refine ⟨?_, ?_, ?_⟩
  · intro d hd hw
    have hr : sendToDevice now id dm =
        (true, { devices := mset dm.devices id { d with lastActive := now } }) := by
      simp [sendToDevice, hd, hw]
    rw [hr]
    refine ⟨rfl, mget_mset_self _ _ _, fun j hj => mget_mset_ne _ _ _ _ hj, ?_⟩
    intro h2
    simp only [cleanInactiveDevices]
    refine mget_filter_keep _ _ _ _ (mget_mset_self _ _ _) ?_
    simp only [gt_iff_lt, Bool.not_eq_true', decide_eq_false_iff_not, not_lt]
    omega
  · intro hf
    rcases hd : mget dm.devices id with _ | d
    · simp [sendToDevice, hd]
    · by_cases hw : d.wsAlive = true
      · simp [sendToDevice, hd, hw] at hf
      · simp [sendToDevice, hd, hw]
  · intro k d hk
    simp [broadcastToAll, mget_map_pair, hk]

/-- Witness for C10: the statement applied to the concrete registry `dmS`
with live device `dev1`, sent to at time 100 and surviving an eviction pass
at time 200. -/
theorem sendToDevice_activity_witness :
    (mget dmS.devices "dev1" = some dev1rec ∧ dev1rec.wsAlive = true ∧
     (200 : Nat) ≤ 100 + 30 * 60 * 1000) ∧
    ((sendToDevice 100 "dev1" dmS).1 = true ∧
     mget (sendToDevice 100 "dev1" dmS).2.devices "dev1" =
       some { dev1rec with lastActive := 100 } ∧
     mget (cleanInactiveDevices 200 (30 * 60 * 1000)
        (sendToDevice 100 "dev1" dmS).2).2.devices "dev1" =
       some { dev1rec with lastActive := 100 }) := by
  have happ := (sendToDevice_activity dmS 100 200 "dev1").1 dev1rec (by decide)
    (by decide)
  exact ⟨⟨by decide, by decide, by decide⟩, happ.1, happ.2.1,
    happ.2.2.2 (by decide)⟩

end EverydAI
